import Mathlib

/-!
Verification of the playfight-2k26 WebGL/DOM transition subsystem.

Shallow embedding of the parts of the code the claims speak about:
  * `Emitter` (src/unnamed/part_000) — snapshot-based event dispatch, `once`.
  * `Time` (src/canvas/utils/Time.js) — RAF clock with a 60 ms delta cap.
  * `TextureCache` (src/canvas/utils/TextureCache.js) — single-flight loads.
  * `DOMPlane` (src/unnamed/part_002) — pixel → world conversion, per-frame sync.
  * `TransitionController` (src/unnamed/part_001) — cross-page mesh transition.

Pixel quantities, world units and timeline timestamps are modelled over `ℚ`.
Object identity (meshes, geometries, materials, timelines, promises) is
modelled with numeric ids and explicit heaps, so that sharing and disposal
of the underlying GPU resources can be stated faithfully.
-/

namespace Playfight

/-! ## Screen / viewport geometry (DOMPlane, part_002) -/

/-- A DOM bounding rect as returned by `getBoundingClientRect()`. -/
structure Rect where
  left : ℚ
  top : ℚ
  width : ℚ
  height : ℚ
deriving Repr, DecidableEq

/-- Screen size in CSS pixels. -/
structure Screen where
  width : ℚ
  height : ℚ
deriving Repr, DecidableEq

/-- WebGL viewport size in world units. -/
structure Viewport where
  width : ℚ
  height : ℚ
deriving Repr, DecidableEq

/-- Embeds `DOMPlane.updateX` (part_002 lines 174-180):
`((left + width / 2) / screen.width) * viewport.width - viewport.width / 2`. -/
def DOMPlane.updateX (screen : Screen) (viewport : Viewport) (left width : ℚ) : ℚ :=
  ((left + width / 2) / screen.width) * viewport.width - viewport.width / 2

/-- Embeds `DOMPlane.updateY` (part_002 lines 183-189):
`viewport.height / 2 - ((top + height / 2) / screen.height) * viewport.height`. -/
def DOMPlane.updateY (screen : Screen) (viewport : Viewport) (top height : ℚ) : ℚ :=
  viewport.height / 2 - ((top + height / 2) / screen.height) * viewport.height

/-- Width conversion used by `DOMPlane.createPlane` / `DOMPlane.onResize`
(part_002 lines 58-59 and 251-253): `(bounds.width / screen.width) * viewport.width`. -/
def DOMPlane.worldWidth (screen : Screen) (viewport : Viewport) (w : ℚ) : ℚ :=
  (w / screen.width) * viewport.width

/-- Height conversion used by `DOMPlane.createPlane` / `DOMPlane.onResize`
(part_002 lines 60-61 and 254-256): `(bounds.height / screen.height) * viewport.height`. -/
def DOMPlane.worldHeight (screen : Screen) (viewport : Viewport) (h : ℚ) : ℚ :=
  (h / screen.height) * viewport.height

/-- Embeds the `TransitionController.animateToDOM` target width (part_001 lines 240-241):
`(targetRect.width / screen.width) * viewport.width`. -/
def TransitionController.targetWidth (rect : Rect) (viewport : Viewport) (screen : Screen) : ℚ :=
  (rect.width / screen.width) * viewport.width

/-- Embeds the `TransitionController.animateToDOM` target height (part_001 lines 242-243):
`(targetRect.height / screen.height) * viewport.height`. -/
def TransitionController.targetHeight (rect : Rect) (viewport : Viewport) (screen : Screen) : ℚ :=
  (rect.height / screen.height) * viewport.height

/-- Embeds the `TransitionController.animateToDOM` target x (part_001 lines 244-247):
`((rect.left + rect.width / 2) / screen.width) * viewport.width - viewport.width / 2`. -/
def TransitionController.targetX (rect : Rect) (viewport : Viewport) (screen : Screen) : ℚ :=
  ((rect.left + rect.width / 2) / screen.width) * viewport.width - viewport.width / 2

/-- Embeds the `TransitionController.animateToDOM` target y (part_001 lines 248-251):
`viewport.height / 2 - ((rect.top + rect.height / 2) / screen.height) * viewport.height`. -/
def TransitionController.targetY (rect : Rect) (viewport : Viewport) (screen : Screen) : ℚ :=
  viewport.height / 2 - ((rect.top + rect.height / 2) / screen.height) * viewport.height

/-! ## Time (src/canvas/utils/Time.js) -/

/-- State of the `Time` frame clock: `current` is the timestamp of the previous
tick, `elapsed` the accumulated play time, `delta` the last published delta,
`playing` the play/pause flag. -/
structure TimeState where
  current : ℚ
  elapsed : ℚ
  delta : ℚ
  playing : Bool
deriving Repr, DecidableEq

/-- Embeds `Time.tick` (Time.js lines 25-40), with `now = performance.now()` passed in:
```
this.delta = current - this.current;
this.elapsed += this.playing ? this.delta : 0;
this.current = current;
if (this.delta > 60) { this.delta = 60; }
if (this.playing) { this.emit('tick'); }
```
The returned Bool is whether a `tick` event was emitted; listeners that run
then observe the final `delta` field. -/
def Time.tick (now : ℚ) (t : TimeState) : TimeState × Bool :=
  let delta0 := now - t.current
  let elapsed1 := t.elapsed + (if t.playing then delta0 else 0)
  let delta1 := if delta0 > 60 then 60 else delta0
  (⟨now, elapsed1, delta1, t.playing⟩, t.playing)

/-! ## TextureCache (src/canvas/utils/TextureCache.js) -/

/-- What a `TextureCache.load` call returns: an immediate rejection (no src),
an already-resolved promise carrying a cached texture id, or a pending
promise id. -/
inductive LoadResult where
  | rejectNoSource : LoadResult
  | resolvedCached (textureId : ℕ) : LoadResult
  | pendingPromise (promiseId : ℕ) : LoadResult
deriving Repr, DecidableEq

/-- TextureCache state: `cache` maps url → texture id of resolved loads,
`pending` maps url → promise id of in-flight loads, `fetches` records every
`loader.load(src, ...)` invocation in order, `nextPromise` supplies fresh
promise ids. -/
structure TCState where
  cache : List (ℕ × ℕ)
  pending : List (ℕ × ℕ)
  fetches : List ℕ
  nextPromise : ℕ
deriving Repr, DecidableEq

/-- Association-list lookup (first binding wins, like `Map.get`). -/
def alistFind (l : List (ℕ × ℕ)) (k : ℕ) : Option ℕ :=
  match l with
  | [] => none
  | (k0, v0) :: rest => if k0 = k then some v0 else alistFind rest k

/-- Embeds `TextureCache.load` (TextureCache.js lines 15-48). `src = none` models a
falsy source. A cache hit returns the cached texture; a pending hit returns
the stored promise; otherwise one `loader.load` fetch is issued, a fresh
promise is recorded in `pending`, and that promise is returned. -/
def TextureCache.load (src : Option ℕ) (s : TCState) : LoadResult × TCState :=
  match src with
  | none => (.rejectNoSource, s)
  | some u =>
    match alistFind s.cache u with
    | some tex => (.resolvedCached tex, s)
    | none =>
      match alistFind s.pending u with
      | some pid => (.pendingPromise pid, s)
      | none =>
        let pid := s.nextPromise
        (.pendingPromise pid,
          { cache := s.cache
            pending := (u, pid) :: s.pending
            fetches := s.fetches ++ [u]
            nextPromise := pid + 1 })

/-- Run `n` successive `load u` calls with no resolution in between
(concurrent calls while the first is still in flight), collecting results. -/
def TextureCache.loadN (u : ℕ) : ℕ → TCState → List LoadResult × TCState
  | 0, s => ([], s)
  | n + 1, s =>
    let (r, s1) := TextureCache.load (some u) s
    let (rs, s2) := TextureCache.loadN u n s1
    (r :: rs, s2)

/-- Number of underlying loader fetches issued for url `u`. -/
def TCState.fetchCount (s : TCState) (u : ℕ) : ℕ :=
  s.fetches.count u

/-! ## Emitter (src/unnamed/part_000)

Event names and namespaces are modelled as numbers; handler functions as
numeric ids resolved through an environment of deep-embedded handler bodies,
so that function identity (used by `off`) and re-entrant `emit` calls can be
expressed. A fuel argument bounds nested emit/call depth. -/

/-- One entry of `this._events[event]`: `{ fn: callback, ns: namespace || null }`. -/
structure Entry where
  fn : ℕ
  ns : Option ℕ
deriving Repr, DecidableEq

/-- Emitter state plus a scratch counter that handler bodies can bump
(standing for an observable side effect of a user callback). The events map is
an association list; an event key is absent exactly when JS has deleted it. -/
structure EmState where
  events : List (ℕ × List Entry)
  counter : ℕ
deriving Repr, DecidableEq

/-- Lookup of `this._events[event]` — `none` when the key is absent. -/
def EmState.entriesOf (s : EmState) (e : ℕ) : Option (List Entry) :=
  match s.events.find? (fun p => p.1 = e) with
  | none => none
  | some p => some p.2

/-- Replace the binding of event `e` (used by `off` filtering). An empty
result deletes the key, mirroring `delete this._events[event]`. -/
def setEntries (evs : List (ℕ × List Entry)) (e : ℕ) (l : List Entry) :
    List (ℕ × List Entry) :=
  match evs with
  | [] => if l.isEmpty then [] else [(e, l)]
  | (k, v) :: rest =>
    if k = e then
      if l.isEmpty then rest else (e, l) :: rest
    else (k, v) :: setEntries rest e l

/-- Embeds `Emitter.on` (part_000 lines 23-31): create the event list if missing and
push `{ fn, ns }` at the end. (The falsy-argument guard is handled at call
sites; callbacks here are always ids.) -/
def emOn (evs : List (ℕ × List Entry)) (e : ℕ) (h : ℕ) (ns : Option ℕ) :
    List (ℕ × List Entry) :=
  match evs with
  | [] => [(e, [⟨h, ns⟩])]
  | (k, v) :: rest =>
    if k = e then (k, v ++ [⟨h, ns⟩]) :: rest
    else (k, v) :: emOn rest e h ns

/-- Embeds `Emitter.off(event, callback)` with a specific callback (part_000 lines
57-63): filter out entries whose `fn` is that callback, deleting the key if
the list becomes empty. -/
def emOffFn (evs : List (ℕ × List Entry)) (e : ℕ) (h : ℕ) :
    List (ℕ × List Entry) :=
  match evs with
  | [] => []
  | (k, v) :: rest =>
    if k = e then
      let v1 := v.filter (fun entry => entry.fn ≠ h)
      if v1.isEmpty then rest else (k, v1) :: rest
    else (k, v) :: emOffFn rest e h

/-- Deep-embedded handler bodies. `callH` invokes another handler by id
(function call), `emitE` re-entrantly emits, `onE` / `offFnE` mutate the
registration map, `ifCounterEq` branches on the scratch counter. -/
inductive HProg where
  | nop : HProg
  | incr : HProg
  | seq (a b : HProg) : HProg
  | ifCounterEq (n : ℕ) (a : HProg) : HProg
  | onE (e : ℕ) (h : ℕ) (ns : Option ℕ) : HProg
  | offFnE (e : ℕ) (h : ℕ) : HProg
  | callH (h : ℕ) : HProg
  | emitE (e : ℕ) : HProg
deriving Repr, DecidableEq

/-- Run a handler body. A fuel step is consumed at each constructor so the
interpreter is structurally recursive on fuel (with fuel 0 nothing runs; all
theorems quantify over or supply sufficient fuel). A re-entrant `emitE`
mirrors `Emitter.emit` (part_000 lines 70-76): it snapshots the current entry
list (`[...this._events[event]]`) and then invokes each snapshot entry in
order via a fold, so mutations of the map performed by the handlers do not
change the iteration. -/
def runProg (env : ℕ → HProg) : ℕ → HProg → EmState → EmState
  | 0, _, s => s
  | fuel + 1, p, s =>
    match p with
    | .nop => s
    | .incr => { s with counter := s.counter + 1 }
    | .seq a b => runProg env fuel b (runProg env fuel a s)
    | .ifCounterEq n a => if s.counter = n then runProg env fuel a s else s
    | .onE e h ns => { s with events := emOn s.events e h ns }
    | .offFnE e h => { s with events := emOffFn s.events e h }
    | .callH h => runProg env fuel (env h) s
    | .emitE e =>
      match s.entriesOf e with
      | none => s
      | some snapshot =>
        snapshot.foldl (fun st en => runProg env fuel (env en.fn) st) s

/-- Top-level `Emitter.emit`: `if (!this._events[event]) return this;` then
dispatch over the snapshot. Also reports the list of handler ids this emit
pass itself invokes (its snapshot iteration), in order; handlers run on the
same `runProg` semantics, so they may re-entrantly emit. -/
def emit (env : ℕ → HProg) (fuel : ℕ) (e : ℕ) (s : EmState) :
    EmState × List ℕ :=
  match s.entriesOf e with
  | none => (s, [])
  | some snapshot =>
    (snapshot.foldl (fun st en => runProg env fuel (env en.fn) st) s,
      snapshot.map Entry.fn)

/-- Embeds `Emitter.once` (part_000 lines 33-39): register a wrapper that first calls
the callback and then removes itself via `off(event, wrapper, namespace)`.
The wrapper is a fresh function, modelled by a caller-chosen fresh id
`w` whose body is `onceWrapperBody e cb w`. -/
def onceWrapperBody (e : ℕ) (cb : ℕ) (w : ℕ) : HProg :=
  .seq (.callH cb) (.offFnE e w)

/-- Registration effect of `once e cb ns` on the state: `on(event, wrapper, namespace)`. -/
def emOnce (s : EmState) (e : ℕ) (w : ℕ) (ns : Option ℕ) : EmState :=
  { s with events := emOn s.events e w ns }

/-- Handler bodies that only touch the scratch counter: no registration
changes, no nested calls or emits. -/
def localOnly : HProg → Bool
  | .nop => true
  | .incr => true
  | .seq a b => localOnly a && localOnly b
  | .ifCounterEq _ a => localOnly a
  | .onE _ _ _ => false
  | .offFnE _ _ => false
  | .callH _ => false
  | .emitE _ => false

/-- Environment after `once(e, cb)`: handler id 0 is the user callback with
body `p`, handler id 1 the `once` wrapper around it. -/
def onceEnv (e : ℕ) (p : HProg) : ℕ → HProg :=
  fun h => if h = 1 then onceWrapperBody e 0 1 else p

/-- Emitter state right after `once(e, cb)` on a fresh emitter (wrapper id 1),
with the scratch counter at `c`. -/
def onceState (e c : ℕ) : EmState :=
  emOnce ⟨[], c⟩ e 1 none

/-- A callback that bumps the counter and, on its first invocation only,
re-entrantly emits event 5 (the guard keeps the re-entrancy finite). -/
def reentrantCb : HProg :=
  .seq .incr (.ifCounterEq 1 (.emitE 5))

/-- Environment for the re-entrancy scenario: callback 0 is `reentrantCb`,
handler 1 its `once` wrapper for event 5. -/
def reentrantEnv : ℕ → HProg :=
  fun h => if h = 1 then onceWrapperBody 5 0 1 else reentrantCb

/-- Environment for the add-during-dispatch scenario: handler 0 bumps the
counter and registers handler 1 for event 5; handler 1 just bumps the
counter. -/
def addDuringEmitEnv : ℕ → HProg :=
  fun h => if h = 0 then .seq .incr (.onE 5 1 none) else .incr

/-- State with only handler 0 registered for event 5. -/
def addDuringEmitState : EmState :=
  ⟨[(5, [⟨0, none⟩])], 0⟩

/-- Environment for the remove-during-dispatch scenario: handler 0 bumps the
counter and unregisters handler 2 from event 5; handler 2 just bumps the
counter. -/
def removeDuringEmitEnv : ℕ → HProg :=
  fun h => if h = 0 then .seq .incr (.offFnE 5 2) else .incr

/-- State with handlers 0 and 2 registered for event 5. -/
def removeDuringEmitState : EmState :=
  ⟨[(5, [⟨0, none⟩, ⟨2, none⟩])], 0⟩

/-! ## DOMPlane per-frame sync (src/unnamed/part_002 lines 159-171) -/

/-- The slice of a tracked plane the sync pass touches: the `userData.worldPos`
hover latch and the mesh position. -/
structure PlaneState where
  worldPos : Option (ℚ × ℚ)
  posX : ℚ
  posY : ℚ
  posZ : ℚ
deriving Repr, DecidableEq

/-- Embeds `DOMPlane.updatePlanePosition` (part_002 lines 159-171), with the element's
current `getBoundingClientRect()` passed in as `bounds`:
```
if (plane.userData.worldPos) return;
const bounds = img.getBoundingClientRect();
if (bounds.width === 0 || bounds.height === 0) return;
const x = this.updateX(bounds.left, bounds.width);
const y = this.updateY(bounds.top, bounds.height);
plane.position.set(x, y, 0);
```
`worldPos` is `null` or an `{x, y}` object (always truthy), so the first guard
is `worldPos.isSome`. -/
def updatePlanePosition (screen : Screen) (viewport : Viewport) (bounds : Rect)
    (p : PlaneState) : PlaneState :=
  if p.worldPos.isSome then p
  else if bounds.width = 0 ∨ bounds.height = 0 then p
  else
    { p with
      posX := DOMPlane.updateX screen viewport bounds.left bounds.width
      posY := DOMPlane.updateY screen viewport bounds.top bounds.height
      posZ := 0 }

/-! ## TransitionController (src/unnamed/part_001)

Meshes, geometries, materials and timelines are identified by numeric ids;
mesh objects live in a heap so that mutation of the source plane through the
session (visibility, uniform writes) and sharing of the geometry between the
source plane and the clone are observable. -/

/-- The uniforms of a plane material; only `uOpacity` matters to the claims.
`none` models a material without that uniform. -/
structure Uniforms where
  uOpacity : Option ℚ
deriving Repr, DecidableEq

/-- A three.js material: identity, `transparent`, plain `opacity`, uniforms. -/
structure Material where
  matId : ℕ
  transparent : Bool
  opacity : ℚ
  uniforms : Uniforms
deriving Repr, DecidableEq

/-- A mesh: geometry reference (by id — shared references share the id),
material, visibility, position. -/
structure MeshObj where
  geomId : ℕ
  material : Material
  visible : Bool
  posX : ℚ
  posY : ℚ
  posZ : ℚ
deriving Repr, DecidableEq

/-- Status of `this.activePageTransition.status`. -/
inductive TStatus where
  | waitingForTarget : TStatus
  | animating : TStatus
  | complete : TStatus
deriving Repr, DecidableEq

/-- The `activePageTransition` record (part_001 lines 173-180), keeping the
fields the claims need. -/
structure Session where
  status : TStatus
  meshId : ℕ
  sourcePlaneId : ℕ
  targetUrl : ℕ
deriving Repr, DecidableEq

/-- Controller + scene-graph state. `disposedGeoms` / `disposedMats` record
every `dispose()` call; `killedTimelines` every `timeline.kill()`;
`killedOpacityTweens` every `gsap.killTweensOf(<material>.uniforms.uOpacity)`
by material id. -/
structure CtrlState where
  heap : List (ℕ × MeshObj)
  scene : List ℕ
  transitionMesh : Option ℕ
  activePageTransition : Option Session
  timeline : Option ℕ
  killedTimelines : List ℕ
  disposedGeoms : List ℕ
  disposedMats : List ℕ
  killedOpacityTweens : List ℕ
  nextMeshId : ℕ
  nextMatId : ℕ
  nextTimelineId : ℕ
deriving Repr, DecidableEq

/-- Heap lookup by mesh id. -/
def heapGet (h : List (ℕ × MeshObj)) (i : ℕ) : Option MeshObj :=
  match h with
  | [] => none
  | (k, m) :: rest => if k = i then some m else heapGet rest i

/-- Heap update of the first binding of `i`. -/
def heapSet (h : List (ℕ × MeshObj)) (i : ℕ) (m : MeshObj) : List (ℕ × MeshObj) :=
  match h with
  | [] => []
  | (k, m0) :: rest => if k = i then (k, m) :: rest else (k, m0) :: heapSet rest i m

/-- Step 2 of `startTransition` (part_001 lines 109-115) as it acts on the
source material: when a `uOpacity` uniform exists, its value is forcibly set
to 1 (its tweens are killed, recorded separately); otherwise untouched. -/
def sourceOpacityReset (mat : Material) : Material :=
  if mat.uniforms.uOpacity.isSome then { mat with uniforms := { uOpacity := some 1 } }
  else mat

/-- The cloned material (part_001 lines 105-146): fresh identity,
`transparent = true`, `opacity = 1`; uniform values deep-copied from the
(already reset) source material, then `uOpacity.value = 1` when present. -/
def cloneMaterialOf (freshId : ℕ) (resetSrc : Material) : Material :=
  { matId := freshId
    transparent := true
    opacity := 1
    uniforms := { uOpacity := resetSrc.uniforms.uOpacity.map (fun _ => 1) } }

/-- The transition mesh (part_001 lines 148-170):
`new Mesh(sourcePlane.geometry, clonedMaterial)` — it shares the source's
geometry object — position copied from the source, x/y overridden by a valid
`startPosition`, made visible. -/
def cloneMeshOf (sp : MeshObj) (mat : Material)
    (startPosition : Option (ℚ × ℚ)) : MeshObj :=
  match startPosition with
  | some q =>
    { geomId := sp.geomId, material := mat, visible := true
      posX := q.1, posY := q.2, posZ := sp.posZ }
  | none =>
    { geomId := sp.geomId, material := mat, visible := true
      posX := sp.posX, posY := sp.posY, posZ := sp.posZ }

/-- Embeds `TransitionController.startTransition` (part_001 lines 101-235).
Steps, in source order:
1. `sourcePlane.material.clone()` with `transparent = true`, `opacity = 1`;
2. if the source material has a `uOpacity` uniform, kill its tweens and set
   the source's own `uOpacity.value = 1` (`sourceOpacityReset`);
3. deep-copy the source's (now reset) uniform values into the clone, then set
   the clone's `uOpacity.value = 1` when present (`cloneMaterialOf`);
4. `new Mesh(sourcePlane.geometry, clonedMaterial)` (`cloneMeshOf`) — the
   clone shares the source's geometry object; add to scene, show clone, hide
   source;
5. record `activePageTransition` with status `'waiting-for-target'` and
   create a fresh timeline (the interaction-uniform reset tweens it holds are
   irrelevant to the claims).
Returns the state unchanged when the source plane is missing
(`if (!sourcePlane) return`). -/
def startTransition (s : CtrlState) (spId : ℕ) (targetUrl : ℕ)
    (startPosition : Option (ℚ × ℚ)) : CtrlState :=
  match heapGet s.heap spId with
  | none => s
  | some sp =>
    let killed := if sp.material.uniforms.uOpacity.isSome then
        s.killedOpacityTweens ++ [sp.material.matId]
      else s.killedOpacityTweens
    let spMat1 := sourceOpacityReset sp.material
    let clone := cloneMeshOf sp (cloneMaterialOf s.nextMatId spMat1) startPosition
    { heap := (s.nextMeshId, clone) ::
        heapSet s.heap spId { sp with material := spMat1, visible := false }
      scene := s.scene ++ [s.nextMeshId]
      transitionMesh := some s.nextMeshId
      activePageTransition := some ⟨.waitingForTarget, s.nextMeshId, spId, targetUrl⟩
      timeline := some s.nextTimelineId
      killedTimelines := s.killedTimelines
      disposedGeoms := s.disposedGeoms
      disposedMats := s.disposedMats
      killedOpacityTweens := killed
      nextMeshId := s.nextMeshId + 1
      nextMatId := s.nextMatId + 1
      nextTimelineId := s.nextTimelineId + 1 }

/-- Embeds `TransitionController.cleanup` (part_001 lines 439-458):
remove the transition mesh from the scene and dispose its current geometry
and material; restore the source plane's visibility when a session records
one; kill and drop the timeline. -/
def cleanup (s : CtrlState) : CtrlState :=
  let s1 :=
    match s.transitionMesh with
    | none => s
    | some mid =>
      match heapGet s.heap mid with
      | none => { s with transitionMesh := none }
      | some m =>
        { s with
          scene := s.scene.filter (fun j => j ≠ mid)
          disposedGeoms := s.disposedGeoms ++ [m.geomId]
          disposedMats := s.disposedMats ++ [m.material.matId]
          transitionMesh := none }
  let s2 :=
    match s1.activePageTransition with
    | none => s1
    | some sess =>
      match heapGet s1.heap sess.sourcePlaneId with
      | none => s1
      | some sp =>
        { s1 with heap := heapSet s1.heap sess.sourcePlaneId { sp with visible := true } }
  match s2.timeline with
  | none => s2
  | some tl =>
    { s2 with killedTimelines := s2.killedTimelines ++ [tl], timeline := none }

/-- Embeds `TransitionController.cancelPageTransition` (part_001 lines 432-437):
when a session is open, run `cleanup()` and clear `activePageTransition`. -/
def cancelPageTransition (s : CtrlState) : CtrlState :=
  if s.activePageTransition.isSome then
    { cleanup s with activePageTransition := none }
  else s

/-- Embeds `TransitionController.handleTransitionPrepare` (part_001 lines 88-99):
bail out on mobile or on a falsy mesh; otherwise cancel any open session
first, then start a new transition from the given mesh. -/
def handleTransitionPrepare (isMobile : Bool) (mesh : Option ℕ) (targetUrl : ℕ)
    (startPosition : Option (ℚ × ℚ)) (s : CtrlState) : CtrlState :=
  if isMobile then s
  else
    match mesh with
    | none => s
    | some spId =>
      let s1 := if s.activePageTransition.isSome then cancelPageTransition s else s
      startTransition s1 spId targetUrl startPosition

/-! ## animateToDOM timeline shape (part_001 lines 253-355) -/

/-- Targets of the tweens `animateToDOM` adds to its timeline. -/
inductive TwTarget where
  | meshPosition : TwTarget
  | handoffCall : TwTarget
  | cloneOpacityUniform : TwTarget
  | cloneMaterialOpacity : TwTarget
  | sizeProxy : TwTarget
  | pageTransitionUniform : TwTarget
deriving Repr, DecidableEq

/-- One timeline insertion: target, gsap position parameter (timeline-relative
start time in seconds), duration in seconds. -/
structure TimelineItem where
  target : TwTarget
  startAt : ℚ
  duration : ℚ
deriving Repr, DecidableEq

/-- The timeline built by `animateToDOM`, in insertion order (part_001):
* position tween at position `0`, duration `1.5` (lines 258-268);
* `timeline.call` emitting the handoff at position `1.3` (lines 271-275);
* fade of `uOpacity` to 0 — or of `material.opacity` when the uniform is
  absent — at position `1.5`, duration `0.5` (lines 278-290);
* size-proxy geometry tween at position `0`, duration `1.5` (lines 306-336);
* `uPageTransition` tween at position `0`, duration `1.5` (lines 350-354). -/
def animateToDOMTimeline (hasUOpacity : Bool) : List TimelineItem :=
  [⟨.meshPosition, 0, 3/2⟩,
   ⟨.handoffCall, 13/10, 0⟩,
   if hasUOpacity then ⟨.cloneOpacityUniform, 3/2, 1/2⟩
     else ⟨.cloneMaterialOpacity, 3/2, 1/2⟩,
   ⟨.sizeProxy, 0, 3/2⟩,
   ⟨.pageTransitionUniform, 0, 3/2⟩]

/-- Whether a tween is the opacity cross-fade. -/
def isFadeTween (it : TimelineItem) : Bool :=
  it.target = .cloneOpacityUniform || it.target = .cloneMaterialOpacity

/-- Whether a tween is the position interpolation. -/
def isPositionTween (it : TimelineItem) : Bool :=
  it.target = .meshPosition

/-- Witness fixture: a source plane with a `uOpacity` uniform at value 5,
living at mesh id 0 with geometry id 10 and material id 20. -/
def wSourcePlane : MeshObj :=
  ⟨10, ⟨20, false, 1, ⟨some 5⟩⟩, true, 0, 0, 0⟩

/-- Witness fixture: an idle controller whose scene holds only the source
plane. -/
def wIdleState : CtrlState :=
  ⟨[(0, wSourcePlane)], [0], none, none, none, [], [], [], [], 1, 21, 30⟩

/-- Witness fixture: the controller right after a first prepare for the
source plane (open session, status waiting-for-target). -/
def wOpenState : CtrlState :=
  startTransition wIdleState 0 7 none

/-! ## Theorems -/

/-- C2: Coordinate-conversion equivalence — for every DOM rect and every
viewport/screen pair, the world position computed by the per-frame DOM sync
path (`DOMPlane.updateX` / `DOMPlane.updateY`) and the world size computed by
its width/height conversion are exactly equal to the target world position
and size computed by `TransitionController.animateToDOM` on the same
inputs. -/
theorem coordinate_conversion_equivalence (rect : Rect) (viewport : Viewport)
    (screen : Screen) :
    TransitionController.targetX rect viewport screen
        = DOMPlane.updateX screen viewport rect.left rect.width ∧
    TransitionController.targetY rect viewport screen
        = DOMPlane.updateY screen viewport rect.top rect.height ∧
    TransitionController.targetWidth rect viewport screen
        = DOMPlane.worldWidth screen viewport rect.width ∧
    TransitionController.targetHeight rect viewport screen
        = DOMPlane.worldHeight screen viewport rect.height :=
  ⟨rfl, rfl, rfl, rfl⟩

/-- C3 counterexample: in the timeline built by `animateToDOM` the unique
opacity cross-fade tween is inserted at position 1.5 s with duration 0.5 s,
so it does not run from t = 1.0 s to t = 1.5 s as the claim states: its start
is not 1.0 and its end is not 1.5. -/
theorem crossfade_timing_counterexample :
    (animateToDOMTimeline true).filter isFadeTween
        = [⟨TwTarget.cloneOpacityUniform, 3/2, 1/2⟩] ∧
    ¬ (TimelineItem.startAt ⟨TwTarget.cloneOpacityUniform, 3/2, 1/2⟩ = 1 ∧
       TimelineItem.startAt ⟨TwTarget.cloneOpacityUniform, 3/2, 1/2⟩ +
         TimelineItem.duration ⟨TwTarget.cloneOpacityUniform, 3/2, 1/2⟩ = 3/2) := by
  refine ⟨rfl, ?_⟩
  rintro ⟨h1, -⟩
  norm_num at h1

/-- C3 amended: in the timeline built by `animateToDOM` (whether the clone's
material has a `uOpacity` uniform or not), the position tween starts at t = 0
with duration 1.5 s, and the unique opacity cross-fade tween is inserted at
position 1.5 s of the same timeline with duration 0.5 s — it begins exactly
when the position tween ends and runs from t = 1.5 s to t = 2.0 s. -/
theorem crossfade_timing_amended (b : Bool) :
    (animateToDOMTimeline b).filter isPositionTween
        = [⟨TwTarget.meshPosition, 0, 3/2⟩] ∧
    ((animateToDOMTimeline b).filter isFadeTween).length = 1 ∧
    ∀ it ∈ (animateToDOMTimeline b).filter isFadeTween,
      it.startAt = 3/2 ∧ it.duration = 1/2 ∧ it.startAt + it.duration = 2 := by
  have key : ∀ it : TimelineItem, it.startAt = 3/2 → it.duration = 1/2 →
      it.startAt = 3/2 ∧ it.duration = 1/2 ∧ it.startAt + it.duration = 2 := by
    intro it h1 h2
    refine ⟨h1, h2, ?_⟩
    rw [h1, h2]
    norm_num
  cases b
  · refine ⟨rfl, rfl, ?_⟩
    intro it hit
    have hf : (animateToDOMTimeline false).filter isFadeTween
        = [⟨TwTarget.cloneMaterialOpacity, 3/2, 1/2⟩] := rfl
    rw [hf] at hit
    have : it = ⟨TwTarget.cloneMaterialOpacity, 3/2, 1/2⟩ := by simpa using hit
    subst this
    exact key _ rfl rfl
  · refine ⟨rfl, rfl, ?_⟩
    intro it hit
    have hf : (animateToDOMTimeline true).filter isFadeTween
        = [⟨TwTarget.cloneOpacityUniform, 3/2, 1/2⟩] := rfl
    rw [hf] at hit
    have : it = ⟨TwTarget.cloneOpacityUniform, 3/2, 1/2⟩ := by simpa using hit
    subst this
    exact key _ rfl rfl

/-- C3 witness: on the `uOpacity` branch, the concrete fade tween of the
timeline starts at 1.5 s, lasts 0.5 s and ends at 2.0 s, while the position
tween occupies 0 s – 1.5 s. -/
theorem crossfade_timing_amended_witness :
    (animateToDOMTimeline true).filter isPositionTween
        = [⟨TwTarget.meshPosition, 0, 3/2⟩] ∧
    ((animateToDOMTimeline true).filter isFadeTween).length = 1 ∧
    ((⟨TwTarget.cloneOpacityUniform, 3/2, 1/2⟩ : TimelineItem).startAt = 3/2 ∧
     (⟨TwTarget.cloneOpacityUniform, 3/2, 1/2⟩ : TimelineItem).duration = 1/2 ∧
     (⟨TwTarget.cloneOpacityUniform, 3/2, 1/2⟩ : TimelineItem).startAt +
       (⟨TwTarget.cloneOpacityUniform, 3/2, 1/2⟩ : TimelineItem).duration = 2) := by
  have h := crossfade_timing_amended true
  refine ⟨h.1, h.2.1, h.2.2 ⟨TwTarget.cloneOpacityUniform, 3/2, 1/2⟩ ?_⟩
  rw [show (animateToDOMTimeline true).filter isFadeTween
    = [(⟨TwTarget.cloneOpacityUniform, 3/2, 1/2⟩ : TimelineItem)] from rfl]
  exact List.mem_singleton.mpr rfl

/-- C5 counterexample: after a 5000 ms wall-clock gap while playing, the
listener-visible `delta` is capped to 60 ms, but `elapsed` is incremented by
the uncapped 5000 ms (the accumulation happens before the cap), contradicting
the claim that `elapsed` grows by `min(G, 60ms)`. -/
theorem time_tick_elapsed_uncapped_counterexample :
    ((Time.tick 5000 ⟨0, 0, 16, true⟩).1).delta = 60 ∧
    ((Time.tick 5000 ⟨0, 0, 16, true⟩).1).elapsed = 5000 ∧
    ¬ ((Time.tick 5000 ⟨0, 0, 16, true⟩).1).elapsed = 0 + 60 := by
  norm_num [Time.tick]

/-- C5 amended: on every tick with wall-clock gap `G = now - current`, the
delta stored for listeners equals `min(G, 60)`, but `elapsed` is accumulated
by the uncapped gap `G` while playing (the cap is applied to `delta` only
after the accumulation); a `tick` event is emitted exactly when playing. -/
theorem time_tick_delta_cap (now : ℚ) (t : TimeState) :
    ((Time.tick now t).1).delta = min (now - t.current) 60 ∧
    ((Time.tick now t).1).elapsed
        = t.elapsed + (if t.playing then now - t.current else 0) ∧
    ((Time.tick now t).1).current = now ∧
    (Time.tick now t).2 = t.playing := by
  refine ⟨?_, rfl, rfl, rfl⟩
  show (if now - t.current > 60 then (60 : ℚ) else now - t.current)
      = min (now - t.current) 60
  rcases le_or_lt (now - t.current) 60 with h | h
  · rw [if_neg (not_lt.mpr h), min_eq_left h]
  · rw [if_pos h, min_eq_right h.le]

/-- C7 counterexample: a tracked plane whose element currently has a nonzero
bounding rect (100 × 50) but whose `userData.worldPos` hover latch is set is
left completely unchanged by `updatePlanePosition` — its position is not
recomputed from the rect, contradicting the claim that every tracked quad
with a nonzero-size element is re-synced. -/
theorem updatePlanePosition_latched_counterexample :
    (100 : ℚ) ≠ 0 ∧ (50 : ℚ) ≠ 0 ∧
    updatePlanePosition ⟨1000, 1000⟩ ⟨10, 10⟩ ⟨0, 0, 100, 50⟩
        ⟨some (0, 0), 5, 5, 0⟩ = ⟨some (0, 0), 5, 5, 0⟩ ∧
    DOMPlane.updateX ⟨1000, 1000⟩ ⟨10, 10⟩ 0 100 ≠ 5 := by
  refine ⟨by norm_num, by norm_num, rfl, ?_⟩
  norm_num [DOMPlane.updateX]

/-- C7 amended: `updatePlanePosition` recomputes a tracked quad's world
position from its element's bounding rect via `updateX` / `updateY` and
assigns it directly, but only when the `worldPos` hover latch is unset
(`null`) and the rect has nonzero width and height; a quad with a zero-size
rect or with the latch set is skipped silently. -/
theorem updatePlanePosition_amended (screen : Screen) (viewport : Viewport)
    (bounds : Rect) (p : PlaneState) :
    (p.worldPos = none → bounds.width ≠ 0 → bounds.height ≠ 0 →
      updatePlanePosition screen viewport bounds p =
        { p with
          posX := DOMPlane.updateX screen viewport bounds.left bounds.width
          posY := DOMPlane.updateY screen viewport bounds.top bounds.height
          posZ := 0 }) ∧
    (p.worldPos.isSome ∨ bounds.width = 0 ∨ bounds.height = 0 →
      updatePlanePosition screen viewport bounds p = p) := by
  constructor
  · intro hl hw hh
    unfold updatePlanePosition
    rw [hl]
    have hcond : ¬ (bounds.width = 0 ∨ bounds.height = 0) := by
      push_neg
      exact ⟨hw, hh⟩
    simp only [Option.isSome_none, Bool.false_eq_true, if_false, if_neg hcond]
  · intro h
    unfold updatePlanePosition
    rcases h with h | h | h
    · rw [if_pos h]
    · rw [h]
      by_cases hl : p.worldPos.isSome
      · rw [if_pos hl]
      · rw [if_neg hl, if_pos (Or.inl rfl)]
    · rw [h]
      by_cases hl : p.worldPos.isSome
      · rw [if_pos hl]
      · rw [if_neg hl, if_pos (Or.inr rfl)]

/-- Helper: `emit` on an event with a registered entry list. -/
lemma emit_eq_of_entries (env : ℕ → HProg) (fuel e : ℕ) (s : EmState)
    (l : List Entry) (h : s.entriesOf e = some l) :
    emit env fuel e s
      = (l.foldl (fun st en => runProg env fuel (env en.fn) st) s,
         l.map Entry.fn) := by
  unfold emit
  rw [h]

/-- Helper: `emit` on an absent event key is a no-op. -/
lemma emit_eq_of_none (env : ℕ → HProg) (fuel e : ℕ) (s : EmState)
    (h : s.entriesOf e = none) :
    emit env fuel e s = (s, []) := by
  unfold emit
  rw [h]

/-- Helper: a handler body that only touches the scratch counter leaves the
registration map untouched. -/
lemma localOnly_preserves_events (p : HProg) (hp : localOnly p = true) :
    ∀ (env : ℕ → HProg) (fuel : ℕ) (s : EmState),
      (runProg env fuel p s).events = s.events := by
  induction p with
  | nop =>
    intro env fuel s
    cases fuel <;> rfl
  | incr =>
    intro env fuel s
    cases fuel <;> rfl
  | seq a b iha ihb =>
    intro env fuel s
    cases fuel with
    | zero => rfl
    | succ f =>
      have hab := hp
      simp only [localOnly, Bool.and_eq_true] at hab
      show (runProg env f b (runProg env f a s)).events = s.events
      rw [ihb hab.2, iha hab.1]
  | ifCounterEq n a iha =>
    intro env fuel s
    cases fuel with
    | zero => rfl
    | succ f =>
      show (if s.counter = n then runProg env f a s else s).events = s.events
      by_cases hc : s.counter = n
      · rw [if_pos hc, iha hp]
      · rw [if_neg hc]
  | onE e h ns => exact absurd hp (by simp [localOnly])
  | offFnE e h => exact absurd hp (by simp [localOnly])
  | callH h => exact absurd hp (by simp [localOnly])
  | emitE e => exact absurd hp (by simp [localOnly])

/-- C8: Snapshot dispatch — `emit(e)` invokes exactly the handlers registered
for `e` at the moment emit is entered (first conjunct, for every environment,
fuel, event and state); a handler that registers a new handler for `e` during
its own invocation does not cause it to run in the same pass (it runs on the
next emit); a handler removed during the pass is still invoked in that
pass (and is gone from the map afterwards). -/
theorem emit_snapshot_dispatch :
    (∀ (env : ℕ → HProg) (fuel e : ℕ) (s : EmState),
      (emit env fuel e s).2 = ((s.entriesOf e).getD []).map Entry.fn) ∧
    ((emit addDuringEmitEnv 9 5 addDuringEmitState).2 = [0] ∧
     ((emit addDuringEmitEnv 9 5 addDuringEmitState).1).counter = 1 ∧
     (emit addDuringEmitEnv 9 5
        (emit addDuringEmitEnv 9 5 addDuringEmitState).1).2 = [0, 1] ∧
     ((emit addDuringEmitEnv 9 5
        (emit addDuringEmitEnv 9 5 addDuringEmitState).1).1).counter = 3) ∧
    ((emit removeDuringEmitEnv 9 5 removeDuringEmitState).2 = [0, 2] ∧
     ((emit removeDuringEmitEnv 9 5 removeDuringEmitState).1).counter = 2 ∧
     ((emit removeDuringEmitEnv 9 5 removeDuringEmitState).1).events
        = [(5, [⟨0, none⟩])]) := by
  refine ⟨?_, by decide, by decide⟩
  intro env fuel e s
  unfold emit
  cases h : s.entriesOf e
  · rfl
  · rfl

/-- C4 counterexample: `once(5, cb)` with a callback that re-entrantly emits
event 5 on its first invocation. The wrapper unregisters itself only after
the callback returns, so the re-entrant emit still sees the wrapper in its
snapshot and the callback body runs twice: the scratch counter — bumped
exactly once per callback run — ends at 2, refuting "invoked at most
once". -/
theorem once_reentrant_counterexample :
    ((emit reentrantEnv 9 5 (onceState 5 0)).1).counter = 2 ∧
    ¬ ((emit reentrantEnv 9 5 (onceState 5 0)).1).counter ≤ 1 := by
  decide

/-- C4 amended: `once(e, cb)` guarantees at-most-one invocation only when the
callback does not re-entrantly emit `e`: for every callback body that only
touches local state (`localOnly`), the first emit of `e` invokes exactly the
wrapper (dispatch list `[1]`), the wrapper then self-unregisters leaving no
handler registered, and every subsequent emit of `e` invokes nothing and
leaves the state unchanged. Under a re-entrant emit of `e` from inside the
callback the guarantee fails (see the counterexample). -/
theorem once_at_most_once (p : HProg) (hp : localOnly p = true)
    (e c fuel fuel2 : ℕ) :
    (emit (onceEnv e p) (fuel + 2) e (onceState e c)).2 = [1] ∧
    ((emit (onceEnv e p) (fuel + 2) e (onceState e c)).1).events = [] ∧
    emit (onceEnv e p) fuel2 e
        ((emit (onceEnv e p) (fuel + 2) e (onceState e c)).1)
      = ((emit (onceEnv e p) (fuel + 2) e (onceState e c)).1, []) := by
  have hsnap : (onceState e c).entriesOf e = some [⟨1, none⟩] := by
    simp [onceState, emOnce, emOn, EmState.entriesOf]
  have h1 := emit_eq_of_entries (onceEnv e p) (fuel + 2) e (onceState e c)
    [⟨1, none⟩] hsnap
  have henv1 : onceEnv e p 1 = onceWrapperBody e 0 1 := by
    simp [onceEnv]
  have henv0 : onceEnv e p 0 = p := by
    simp [onceEnv]
  have hfold : [(⟨1, none⟩ : Entry)].foldl
      (fun st en => runProg (onceEnv e p) (fuel + 2) (onceEnv e p en.fn) st)
      (onceState e c)
      = runProg (onceEnv e p) (fuel + 2) (onceWrapperBody e 0 1)
          (onceState e c) := by
    simp [List.foldl, henv1]
  have hwrap : runProg (onceEnv e p) (fuel + 2) (onceWrapperBody e 0 1)
      (onceState e c)
      = { runProg (onceEnv e p) fuel p (onceState e c) with events := [] } := by
    show (runProg (onceEnv e p) (fuel + 1) (.offFnE e 1)
        (runProg (onceEnv e p) (fuel + 1) (.callH 0) (onceState e c))) = _
    have hcall : runProg (onceEnv e p) (fuel + 1) (.callH 0) (onceState e c)
        = runProg (onceEnv e p) fuel p (onceState e c) := by
      show runProg (onceEnv e p) fuel (onceEnv e p 0) (onceState e c) = _
      rw [henv0]
    rw [hcall]
    show ({ runProg (onceEnv e p) fuel p (onceState e c) with
        events := emOffFn (runProg (onceEnv e p) fuel p (onceState e c)).events
          e 1 } : EmState) = _
    rw [localOnly_preserves_events p hp]
    have hoff : emOffFn (onceState e c).events e 1 = [] := by
      simp [onceState, emOnce, emOn, emOffFn, List.filter]
    rw [hoff]
  have hfinal : emit (onceEnv e p) (fuel + 2) e (onceState e c)
      = ({ runProg (onceEnv e p) fuel p (onceState e c) with events := [] },
         [1]) := by
    rw [h1, hfold, hwrap]
    rfl
  refine ⟨by rw [hfinal], by rw [hfinal], ?_⟩
  rw [hfinal]
  exact emit_eq_of_none _ _ _ _ rfl

/-- C4 witness: with the trivially local callback body `incr`, one emit of
event 5 invokes the wrapper once, deregisters it, and a later emit is a
no-op. -/
theorem once_at_most_once_witness :
    localOnly HProg.incr = true ∧
    (emit (onceEnv 5 HProg.incr) 3 5 (onceState 5 0)).2 = [1] ∧
    ((emit (onceEnv 5 HProg.incr) 3 5 (onceState 5 0)).1).events = [] ∧
    emit (onceEnv 5 HProg.incr) 7 5
        ((emit (onceEnv 5 HProg.incr) 3 5 (onceState 5 0)).1)
      = ((emit (onceEnv 5 HProg.incr) 3 5 (onceState 5 0)).1, []) := by
  refine ⟨rfl, ?_⟩
  exact once_at_most_once HProg.incr rfl 5 0 1 7

/-- Helper: a lookup hit on the head of an association list. -/
lemma alistFind_cons_self (p : List (ℕ × ℕ)) (u pid : ℕ) :
    alistFind ((u, pid) :: p) u = some pid := by
  simp [alistFind]

/-- Helper: `load` on a url with an in-flight promise returns that promise
and leaves the state untouched. -/
lemma load_pending (s : TCState) (u pid : ℕ)
    (hc : alistFind s.cache u = none) (hp : alistFind s.pending u = some pid) :
    TextureCache.load (some u) s = (.pendingPromise pid, s) := by
  simp [TextureCache.load, hc, hp]

/-- Helper: any number of loads of a url with an in-flight promise all return
that same promise and leave the state untouched. -/
lemma loadN_pending (u pid n : ℕ) (s : TCState)
    (hc : alistFind s.cache u = none) (hp : alistFind s.pending u = some pid) :
    TextureCache.loadN u n s
      = (List.replicate n (.pendingPromise pid), s) := by
  induction n with
  | zero => rfl
  | succ m ih =>
    show TextureCache.loadN u (m + 1) s = _
    unfold TextureCache.loadN
    simp only [load_pending s u pid hc hp, ih]
    rfl

/-- C6: TextureCache single-flight — for a url that is neither cached nor
pending, `n + 1` concurrent `load` calls (no resolution in between) all
return the same pending promise, and exactly one underlying `loader.load`
fetch is issued for the url. -/
theorem texture_cache_single_flight (s : TCState) (u n : ℕ)
    (hc : alistFind s.cache u = none) (hp : alistFind s.pending u = none) :
    (TextureCache.loadN u (n + 1) s).1
        = List.replicate (n + 1) (LoadResult.pendingPromise s.nextPromise) ∧
    ((TextureCache.loadN u (n + 1) s).2).fetchCount u = s.fetchCount u + 1 := by
  have hstep : TextureCache.load (some u) s
      = (LoadResult.pendingPromise s.nextPromise,
          ⟨s.cache, (u, s.nextPromise) :: s.pending, s.fetches ++ [u],
            s.nextPromise + 1⟩) := by
    simp [TextureCache.load, hc, hp]
  have hrest := loadN_pending u s.nextPromise n
    ⟨s.cache, (u, s.nextPromise) :: s.pending, s.fetches ++ [u],
      s.nextPromise + 1⟩ hc (alistFind_cons_self s.pending u s.nextPromise)
  have hmain : TextureCache.loadN u (n + 1) s
      = (LoadResult.pendingPromise s.nextPromise ::
          List.replicate n (LoadResult.pendingPromise s.nextPromise),
          ⟨s.cache, (u, s.nextPromise) :: s.pending, s.fetches ++ [u],
            s.nextPromise + 1⟩) := by
    unfold TextureCache.loadN
    simp only [hstep, hrest]
  rw [hmain]
  constructor
  · rw [List.replicate_succ]
  · simp [TCState.fetchCount]

/-- C6 witness: three concurrent loads of url 7 on a fresh cache return three
copies of pending promise 0 and issue exactly one fetch. -/
theorem texture_cache_single_flight_witness :
    alistFind ([] : List (ℕ × ℕ)) 7 = none ∧
    (TextureCache.loadN 7 3 ⟨[], [], [], 0⟩).1
        = List.replicate 3 (LoadResult.pendingPromise 0) ∧
    ((TextureCache.loadN 7 3 ⟨[], [], [], 0⟩).2).fetchCount 7 = 0 + 1 := by
  have h := texture_cache_single_flight ⟨[], [], [], 0⟩ 7 2 rfl rfl
  exact ⟨rfl, h.1, h.2⟩

/-- Helper: heap lookup on a cons cell. -/
lemma heapGet_cons (k : ℕ) (m : MeshObj) (t : List (ℕ × MeshObj)) (i : ℕ) :
    heapGet ((k, m) :: t) i = if k = i then some m else heapGet t i := rfl

/-- Helper: heap update on a cons cell. -/
lemma heapSet_cons (k : ℕ) (m : MeshObj) (t : List (ℕ × MeshObj)) (i : ℕ)
    (x : MeshObj) :
    heapSet ((k, m) :: t) i x
      = if k = i then (k, x) :: t else (k, m) :: heapSet t i x := rfl

/-- Helper: updating an existing binding makes the lookup return the new
object. -/
lemma heapGet_heapSet_self (h : List (ℕ × MeshObj)) (i : ℕ) (m m0 : MeshObj)
    (hh : heapGet h i = some m0) : heapGet (heapSet h i m) i = some m := by
  induction h with
  | nil => simp [heapGet] at hh
  | cons kv rest ih =>
    obtain ⟨k, x⟩ := kv
    by_cases hk : k = i
    · simp [heapSet, heapGet, hk]
    · rw [heapGet_cons, if_neg hk] at hh
      rw [heapSet_cons, if_neg hk, heapGet_cons, if_neg hk]
      exact ih hh

/-- Helper: `startTransition` on a source plane present in the heap, fully
evaluated. -/
lemma startTransition_eq (s : CtrlState) (spId url : ℕ) (sp : MeshObj)
    (sq : Option (ℚ × ℚ)) (hsp : heapGet s.heap spId = some sp) :
    startTransition s spId url sq =
      { heap := (s.nextMeshId,
          cloneMeshOf sp (cloneMaterialOf s.nextMatId
            (sourceOpacityReset sp.material)) sq) ::
          heapSet s.heap spId
            { sp with material := sourceOpacityReset sp.material, visible := false }
        scene := s.scene ++ [s.nextMeshId]
        transitionMesh := some s.nextMeshId
        activePageTransition := some ⟨.waitingForTarget, s.nextMeshId, spId, url⟩
        timeline := some s.nextTimelineId
        killedTimelines := s.killedTimelines
        disposedGeoms := s.disposedGeoms
        disposedMats := s.disposedMats
        killedOpacityTweens := if sp.material.uniforms.uOpacity.isSome then
            s.killedOpacityTweens ++ [sp.material.matId]
          else s.killedOpacityTweens
        nextMeshId := s.nextMeshId + 1
        nextMatId := s.nextMatId + 1
        nextTimelineId := s.nextTimelineId + 1 } := by
  unfold startTransition
  rw [hsp]

/-- Helper: `cleanup` fully evaluated on a state with a transition mesh, an
open session whose source plane exists, and a live timeline. -/
lemma cleanup_eq (s : CtrlState) (cloneId : ℕ) (clone : MeshObj)
    (sess : Session) (sp2 : MeshObj) (tl : ℕ)
    (hm : s.transitionMesh = some cloneId)
    (hc : heapGet s.heap cloneId = some clone)
    (ha : s.activePageTransition = some sess)
    (hsp : heapGet s.heap sess.sourcePlaneId = some sp2)
    (htl : s.timeline = some tl) :
    cleanup s = { s with
      heap := heapSet s.heap sess.sourcePlaneId { sp2 with visible := true }
      scene := s.scene.filter (fun j => j ≠ cloneId)
      transitionMesh := none
      disposedGeoms := s.disposedGeoms ++ [clone.geomId]
      disposedMats := s.disposedMats ++ [clone.material.matId]
      killedTimelines := s.killedTimelines ++ [tl]
      timeline := none } := by
  unfold cleanup
  simp only [hm, hc, ha, hsp, htl]

/-- Helper: `cancelPageTransition` with an open session runs `cleanup` and
clears the session. -/
lemma cancelPageTransition_eq (s : CtrlState) (sess : Session)
    (ha : s.activePageTransition = some sess) :
    cancelPageTransition s = { cleanup s with activePageTransition := none } := by
  unfold cancelPageTransition
  rw [ha]
  rfl

/-- C1: Session exclusivity — from a state with an open session (status
waiting-for-target or animating), handling a second
`webgl:transition:prepare` event (desktop, non-null mesh) first runs the
cancellation: afterwards (and before the new session is recorded, since the
handler equals `startTransition` applied to the cancelled state) the old
session is cleared, its cloned mesh is out of the scene graph, its geometry
and material are disposed, its timeline is killed and its source quad is
visible again; the handler then records exactly one session — the new one —
and the old clone stays out of the final scene with its resources still
disposed. -/
theorem prepare_supersedes_open_session (s : CtrlState) (sess : Session)
    (m sp sp2 : MeshObj) (tl spId2 url2 : ℕ)
    (ha : s.activePageTransition = some sess)
    (hstatus : sess.status = .waitingForTarget ∨ sess.status = .animating)
    (hm : s.transitionMesh = some sess.meshId)
    (hmesh : heapGet s.heap sess.meshId = some m)
    (hsp : heapGet s.heap sess.sourcePlaneId = some sp)
    (htl : s.timeline = some tl)
    (hfresh : sess.meshId ≠ s.nextMeshId)
    (hsp2 : heapGet (cancelPageTransition s).heap spId2 = some sp2) :
    (cancelPageTransition s).activePageTransition = none ∧
    sess.meshId ∉ (cancelPageTransition s).scene ∧
    m.geomId ∈ (cancelPageTransition s).disposedGeoms ∧
    m.material.matId ∈ (cancelPageTransition s).disposedMats ∧
    tl ∈ (cancelPageTransition s).killedTimelines ∧
    ((heapGet (cancelPageTransition s).heap sess.sourcePlaneId).map
        MeshObj.visible) = some true ∧
    handleTransitionPrepare false (some spId2) url2 none s
      = startTransition (cancelPageTransition s) spId2 url2 none ∧
    (handleTransitionPrepare false (some spId2) url2 none s).activePageTransition
      = some ⟨.waitingForTarget, s.nextMeshId, spId2, url2⟩ ∧
    sess.meshId ∉ (handleTransitionPrepare false (some spId2) url2 none s).scene ∧
    m.geomId ∈ (handleTransitionPrepare false (some spId2) url2 none s).disposedGeoms := by
  have hcancel : cancelPageTransition s = { s with
      heap := heapSet s.heap sess.sourcePlaneId { sp with visible := true }
      scene := s.scene.filter (fun j => j ≠ sess.meshId)
      transitionMesh := none
      activePageTransition := none
      disposedGeoms := s.disposedGeoms ++ [m.geomId]
      disposedMats := s.disposedMats ++ [m.material.matId]
      killedTimelines := s.killedTimelines ++ [tl]
      timeline := none } := by
    rw [cancelPageTransition_eq s sess ha,
      cleanup_eq s sess.meshId m sess sp tl hm hmesh ha hsp htl]
  have hhandler : handleTransitionPrepare false (some spId2) url2 none s
      = startTransition (cancelPageTransition s) spId2 url2 none := by
    unfold handleTransitionPrepare
    rw [ha]
    rfl
  have hnext : (cancelPageTransition s).nextMeshId = s.nextMeshId := by
    rw [hcancel]
  have hstart := startTransition_eq (cancelPageTransition s) spId2 url2 sp2
    none hsp2
  refine ⟨?_, ?_, ?_, ?_, ?_, ?_, hhandler, ?_, ?_, ?_⟩
  · rw [hcancel]
  · rw [hcancel]
    simp
  · rw [hcancel]
    simp
  · rw [hcancel]
    simp
  · rw [hcancel]
    simp
  · rw [hcancel]
    show (heapGet (heapSet s.heap sess.sourcePlaneId
      { sp with visible := true }) sess.sourcePlaneId).map MeshObj.visible = some true
    rw [heapGet_heapSet_self s.heap sess.sourcePlaneId _ sp hsp]
    rfl
  · rw [hhandler, hstart, hnext]
  · rw [hhandler, hstart]
    have hsc : (cancelPageTransition s).scene
        = s.scene.filter (fun j => j ≠ sess.meshId) := by
      rw [hcancel]
    rw [hnext, hsc]
    simp [List.mem_append, List.mem_filter, hfresh]
  · rw [hhandler, hstart]
    have hdg : (cancelPageTransition s).disposedGeoms
        = s.disposedGeoms ++ [m.geomId] := by
      rw [hcancel]
    rw [hdg]
    simp

/-- C1 witness: handling a second prepare (same source quad, new url 8) on
the open-session fixture satisfies all hypotheses and conclusions. -/
theorem prepare_supersedes_open_session_witness :
    wOpenState.activePageTransition = some ⟨.waitingForTarget, 1, 0, 7⟩ ∧
    ((cancelPageTransition wOpenState).activePageTransition = none ∧
     (1 : ℕ) ∉ (cancelPageTransition wOpenState).scene ∧
     (10 : ℕ) ∈ (cancelPageTransition wOpenState).disposedGeoms ∧
     (21 : ℕ) ∈ (cancelPageTransition wOpenState).disposedMats ∧
     (30 : ℕ) ∈ (cancelPageTransition wOpenState).killedTimelines ∧
     ((heapGet (cancelPageTransition wOpenState).heap 0).map MeshObj.visible)
        = some true ∧
     handleTransitionPrepare false (some 0) 8 none wOpenState
       = startTransition (cancelPageTransition wOpenState) 0 8 none ∧
     (handleTransitionPrepare false (some 0) 8 none wOpenState).activePageTransition
       = some ⟨.waitingForTarget, 2, 0, 8⟩ ∧
     (1 : ℕ) ∉ (handleTransitionPrepare false (some 0) 8 none wOpenState).scene ∧
     (10 : ℕ) ∈ (handleTransitionPrepare false (some 0) 8 none wOpenState).disposedGeoms) := by
  refine ⟨by decide, ?_⟩
  have h := prepare_supersedes_open_session wOpenState
    ⟨.waitingForTarget, 1, 0, 7⟩
    ⟨10, ⟨21, true, 1, ⟨some 1⟩⟩, true, 0, 0, 0⟩
    ⟨10, ⟨20, false, 1, ⟨some 1⟩⟩, false, 0, 0, 0⟩
    ⟨10, ⟨20, false, 1, ⟨some 1⟩⟩, true, 0, 0, 0⟩
    30 0 8 (by decide) (Or.inl rfl) (by decide) (by decide) (by decide)
    (by decide) (by decide) (by decide)
  revert h
  decide

/-- C9: The transition clone is built sharing the source quad's geometry
object, and a session cancelled while still waiting-for-target (before any
geometry rebuild) disposes exactly that shared geometry: the source quad is
made visible again while still referencing the now-disposed geometry id. -/
theorem cancel_disposes_shared_geometry (s : CtrlState) (spId url : ℕ)
    (sp : MeshObj)
    (hsp : heapGet s.heap spId = some sp)
    (hne : spId ≠ s.nextMeshId) :
    ((heapGet (startTransition s spId url none).heap s.nextMeshId).map
        MeshObj.geomId) = some sp.geomId ∧
    (startTransition s spId url none).activePageTransition
      = some ⟨.waitingForTarget, s.nextMeshId, spId, url⟩ ∧
    sp.geomId ∈
      (cancelPageTransition (startTransition s spId url none)).disposedGeoms ∧
    ((heapGet (cancelPageTransition (startTransition s spId url none)).heap
        spId).map MeshObj.visible) = some true ∧
    ((heapGet (cancelPageTransition (startTransition s spId url none)).heap
        spId).map MeshObj.geomId) = some sp.geomId := by
  have hstart := startTransition_eq s spId url sp none hsp
  have hclone : heapGet (startTransition s spId url none).heap s.nextMeshId
      = some (cloneMeshOf sp (cloneMaterialOf s.nextMatId
          (sourceOpacityReset sp.material)) none) := by
    rw [hstart, heapGet_cons, if_pos rfl]
  have hsrc : heapGet (startTransition s spId url none).heap spId
      = some { sp with material := sourceOpacityReset sp.material, visible := false } := by
    rw [hstart, heapGet_cons, if_neg (Ne.symm hne)]
    exact heapGet_heapSet_self s.heap spId _ sp hsp
  have hsess : (startTransition s spId url none).activePageTransition
      = some ⟨.waitingForTarget, s.nextMeshId, spId, url⟩ := by
    rw [hstart]
  have hmtl : (startTransition s spId url none).timeline
      = some s.nextTimelineId := by
    rw [hstart]
  have htm : (startTransition s spId url none).transitionMesh
      = some s.nextMeshId := by
    rw [hstart]
  have hcleanup := cleanup_eq (startTransition s spId url none) s.nextMeshId
    (cloneMeshOf sp (cloneMaterialOf s.nextMatId
      (sourceOpacityReset sp.material)) none)
    ⟨.waitingForTarget, s.nextMeshId, spId, url⟩
    { sp with material := sourceOpacityReset sp.material, visible := false }
    s.nextTimelineId htm hclone hsess hsrc hmtl
  have hcancel := cancelPageTransition_eq (startTransition s spId url none)
    ⟨.waitingForTarget, s.nextMeshId, spId, url⟩ hsess
  have hfinalsrc : heapGet (cancelPageTransition
        (startTransition s spId url none)).heap spId
      = some { sp with material := sourceOpacityReset sp.material, visible := true } := by
    rw [hcancel, hcleanup]
    show heapGet (heapSet (startTransition s spId url none).heap spId
      { sp with material := sourceOpacityReset sp.material, visible := true }) spId = _
    rw [hstart]
    show heapGet (heapSet ((s.nextMeshId, _) :: heapSet s.heap spId _) spId _)
      spId = _
    rw [heapSet_cons, if_neg (Ne.symm hne), heapGet_cons, if_neg (Ne.symm hne)]
    exact heapGet_heapSet_self _ spId _
      { sp with material := sourceOpacityReset sp.material, visible := false }
      (heapGet_heapSet_self s.heap spId _ sp hsp)
  refine ⟨?_, hsess, ?_, ?_, ?_⟩
  · rw [hclone]
    rfl
  · rw [hcancel, hcleanup]
    show sp.geomId ∈ (startTransition s spId url none).disposedGeoms ++
      [(cloneMeshOf sp (cloneMaterialOf s.nextMatId
        (sourceOpacityReset sp.material)) none).geomId]
    simp [cloneMeshOf]
  · rw [hfinalsrc]
    rfl
  · rw [hfinalsrc]
    rfl

/-- C9 witness: starting a transition from the fixture source plane (geometry
id 10) and cancelling while waiting-for-target leaves the source quad visible
but referencing disposed geometry 10. -/
theorem cancel_disposes_shared_geometry_witness :
    heapGet wIdleState.heap 0 = some wSourcePlane ∧
    (0 : ℕ) ≠ wIdleState.nextMeshId ∧
    (((heapGet (startTransition wIdleState 0 7 none).heap 1).map
        MeshObj.geomId) = some 10 ∧
     (startTransition wIdleState 0 7 none).activePageTransition
       = some ⟨.waitingForTarget, 1, 0, 7⟩ ∧
     (10 : ℕ) ∈
       (cancelPageTransition (startTransition wIdleState 0 7 none)).disposedGeoms ∧
     ((heapGet (cancelPageTransition
         (startTransition wIdleState 0 7 none)).heap 0).map MeshObj.visible)
       = some true ∧
     ((heapGet (cancelPageTransition
         (startTransition wIdleState 0 7 none)).heap 0).map MeshObj.geomId)
       = some 10) := by
  refine ⟨by decide, by decide, ?_⟩
  have h := cancel_disposes_shared_geometry wIdleState 0 7 wSourcePlane
    (by decide) (by decide)
  revert h
  decide

/-- C10: Preparing a transition mutates the source quad beyond hiding it —
whenever the source plane's material has a `uOpacity` uniform (at any value
`v`), `startTransition` kills the tweens on that uniform (recorded by
material id) and forcibly sets the source's own `uOpacity` value to 1 before
the transition mesh is built; the clone's `uOpacity` is then also set
to 1 separately. -/
theorem prepare_resets_source_opacity (s : CtrlState) (spId url : ℕ)
    (sp : MeshObj) (v : ℚ)
    (hsp : heapGet s.heap spId = some sp)
    (hop : sp.material.uniforms.uOpacity = some v)
    (hne : spId ≠ s.nextMeshId) :
    ((heapGet (startTransition s spId url none).heap spId).map
        (fun mo => mo.material.uniforms.uOpacity)) = some (some 1) ∧
    sp.material.matId ∈ (startTransition s spId url none).killedOpacityTweens ∧
    ((heapGet (startTransition s spId url none).heap s.nextMeshId).map
        (fun mo => mo.material.uniforms.uOpacity)) = some (some 1) := by
  have hstart := startTransition_eq s spId url sp none hsp
  have hisSome : sp.material.uniforms.uOpacity.isSome = true := by
    rw [hop]
    rfl
  have hreset : sourceOpacityReset sp.material
      = { sp.material with uniforms := { uOpacity := some 1 } } := by
    unfold sourceOpacityReset
    simp [hisSome]
  refine ⟨?_, ?_, ?_⟩
  · rw [hstart, heapGet_cons, if_neg (Ne.symm hne),
      heapGet_heapSet_self s.heap spId _ sp hsp]
    simp [hreset]
  · rw [hstart]
    show sp.material.matId ∈ (if sp.material.uniforms.uOpacity.isSome then
        s.killedOpacityTweens ++ [sp.material.matId] else s.killedOpacityTweens)
    simp [hisSome]
  · rw [hstart, heapGet_cons, if_pos rfl]
    simp [cloneMeshOf, cloneMaterialOf, hreset]

/-- C10 witness: on the fixture (source uniform value 5, material id 20),
one prepare leaves both the source's and the clone's `uOpacity` at 1 and
records the tween kill for material 20. -/
theorem prepare_resets_source_opacity_witness :
    heapGet wIdleState.heap 0 = some wSourcePlane ∧
    wSourcePlane.material.uniforms.uOpacity = some 5 ∧
    (0 : ℕ) ≠ wIdleState.nextMeshId ∧
    (((heapGet (startTransition wIdleState 0 7 none).heap 0).map
        (fun mo => mo.material.uniforms.uOpacity)) = some (some 1) ∧
     (20 : ℕ) ∈ (startTransition wIdleState 0 7 none).killedOpacityTweens ∧
     ((heapGet (startTransition wIdleState 0 7 none).heap 1).map
        (fun mo => mo.material.uniforms.uOpacity)) = some (some 1)) := by
  refine ⟨by decide, by decide, by decide, ?_⟩
  have h := prepare_resets_source_opacity wIdleState 0 7 wSourcePlane 5
    (by decide) (by decide) (by decide)
  revert h
  decide

/-- C7 witness: a plane with the latch unset and a 100 × 50 rect on a
1000 × 1000 screen with a 10 × 10 viewport is assigned the recomputed world
position (-9/2, 19/4, 0). -/
theorem updatePlanePosition_amended_witness :
    (⟨none, 5, 5, 0⟩ : PlaneState).worldPos = none ∧
    (100 : ℚ) ≠ 0 ∧ (50 : ℚ) ≠ 0 ∧
    updatePlanePosition ⟨1000, 1000⟩ ⟨10, 10⟩ ⟨0, 0, 100, 50⟩ ⟨none, 5, 5, 0⟩
      = ⟨none, -9/2, 19/4, 0⟩ := by
  refine ⟨rfl, by norm_num, by norm_num, ?_⟩
  have h := (updatePlanePosition_amended ⟨1000, 1000⟩ ⟨10, 10⟩ ⟨0, 0, 100, 50⟩
    ⟨none, (5 : ℚ), 5, 0⟩).1 rfl (by norm_num) (by norm_num)
  rw [h]
  norm_num [DOMPlane.updateX, DOMPlane.updateY]

end Playfight
